import Mathlib

/-!
Verification development for the gm_dashboard repository.

The repository has three pieces of core logic, embedded here as executable
Lean definitions over which the testable properties are proved:

* the data-normalizer functions of `src/utils/dataTransformers.js`
  (comparison metrics, labor consolidation, NPS snapshot);
* the edge server of `server.js` (routing, directory-traversal guard,
  SPA fallback, reverse proxy header/path rewriting);
* the fetch orchestrator of the API service layer (`fetchSalesComparison`,
  `fetchAllData`), modelled over the settled outcomes of the upstream calls.

Modelling conventions:

* JavaScript numbers are modelled as rationals (ℚ); the floating-point
  representation is not modelled, so arithmetic identities hold exactly.
* JavaScript strings are modelled as Lean strings, with the string
  operations the code uses (toLowerCase, includes, trim, startsWith,
  slice) re-implemented over `List Char` so that they are executable
  in the kernel.  Division names in this code base are ASCII, for which
  these re-implementations agree with the JavaScript originals.
* A raw upstream payload that is absent (`undefined`/`null`) or not an
  array is modelled as `Option.none`, because the transformers treat the
  two cases identically (they return `null` before touching any element).
* Record fields the code reads through `x.f || 0` are `Option ℚ` fields
  here, defaulted with `Option.getD 0`; for numbers the JavaScript `||`
  operator returns the left operand exactly when it is nonzero (NaN is
  not modelled), so the two agree.
-/

namespace GmDash

/-! ## JavaScript string primitives over `List Char` -/

/-- ASCII lower-casing of one character, as `String.prototype.toLowerCase`
acts on the ASCII range (the only characters occurring in this code base). -/
def lowerChar (c : Char) : Char :=
  if 65 ≤ c.toNat ∧ c.toNat ≤ 90 then Char.ofNat (c.toNat + 32) else c

/-- `toLowerCase` over a character list. -/
def lowerL (l : List Char) : List Char := l.map lowerChar

/-- The whitespace characters `String.prototype.trim` removes that occur in
ASCII input. -/
def isWsChar (c : Char) : Bool := c == ' ' || c == '\t' || c == '\n' || c == '\r'

/-- `String.prototype.trim` over a character list. -/
def trimL (l : List Char) : List Char :=
  ((l.dropWhile isWsChar).reverse.dropWhile isWsChar).reverse

/-- Whether the first list starts the second (`String.prototype.startsWith`
with the argument order `startsL pat s` meaning `s.startsWith(pat)`). -/
def startsL : List Char → List Char → Bool
  | [], _ => true
  | _ :: _, [] => false
  | a :: as, b :: bs => a == b && startsL as bs

/-- `String.prototype.includes`: `containsL hay sub` holds when `sub`
occurs contiguously inside `hay`. -/
def containsL (hay sub : List Char) : Bool :=
  match hay with
  | [] => sub.isEmpty
  | _ :: t => startsL sub hay || containsL t sub

/-- `hay.includes(sub)` on strings. -/
def jsIncludes (hay sub : String) : Bool := containsL hay.toList sub.toList

/-- `s.toLowerCase()` on strings. -/
def jsToLower (s : String) : String := String.mk (lowerL s.toList)

/-- `s.trim()` on strings. -/
def jsTrim (s : String) : String := String.mk (trimL s.toList)

/-- `s.startsWith(pat)` on strings. -/
def jsStartsWith (s pat : String) : Bool := startsL pat.toList s.toList

/-- `s.split(sep)[0]`: the part of `s` before the first occurrence of the
(single-character) separator, used for query-string removal. -/
def beforeChar (s : String) (sep : Char) : String :=
  String.mk (s.toList.takeWhile (fun c => c ≠ sep))

/-- The part of `s` from the first occurrence of `sep` on (empty when `sep`
does not occur). -/
def fromChar (s : String) (sep : Char) : String :=
  String.mk (s.toList.dropWhile (fun c => c ≠ sep))

/-- JavaScript `a || b` for an optional string operand: `undefined`, `null`
and the empty string are falsy. -/
def jsStrOr (a : Option String) (b : String) : String :=
  match a with
  | some s => if s = "" then b else s
  | none => b

/-- JavaScript `x || 0` for an optional numeric field (NaN not modelled;
for present numbers `||` returns the number exactly when it is nonzero and
`0` — the same value — when it is zero). -/
def orZero (a : Option ℚ) : ℚ := a.getD 0

/-- `Math.round`, which is `⌊x + 1/2⌋` for every finite number. -/
def jsRound (x : ℚ) : ℤ := ⌊x + 1/2⌋

/-- `Math.round(x * 100) / 100`, the two-decimal rounding used by the labor
transformer. -/
def round2 (x : ℚ) : ℚ := (jsRound (x * 100) : ℚ) / 100

/-! ## Data model of the normalized dashboard schema -/

/-- One side of a season-over-season comparison. -/
structure SeasonFigures where
  period : String
  revenue : ℚ
  quantity : ℚ
deriving DecidableEq

/-- Percent and absolute change of one measure. -/
structure ChangePair where
  percentChange : ℚ
  absoluteChange : ℚ
deriving DecidableEq

/-- The `ComparisonMetric` produced by the sales transformers. -/
structure ComparisonMetric where
  currentSeason : SeasonFigures
  lastSeason : SeasonFigures
  revenueComparison : ChangePair
  quantityComparison : ChangePair
deriving DecidableEq

/-- A raw ticket-sales record as read by `transformTicketSales`
(`fiscal_year`, `total_paid_no_tax`, `quantity_total`). -/
structure TicketRecord where
  fiscal_year : String
  total_paid_no_tax : ℚ
  quantity_total : ℚ
deriving DecidableEq

/-- A raw season-pass record as read by `transformSeasonPassSales`
(`Fiscal_Year`, `Amount`, `Quantity`). -/
structure PassRecord where
  Fiscal_Year : String
  Amount : ℚ
  Quantity : ℚ
deriving DecidableEq

/-! ## `transformTicketSales` (src/utils/dataTransformers.js) -/

/-- `transformTicketSales`: `none` input models a `null`/`undefined` or
non-array payload (the function returns `null` for each, before reading any
element).  Locates the records whose `fiscal_year` is `This Season` resp.
`Last Season` and builds the comparison metric; percent change is `0` when
the previous value is not `> 0`. -/
def transformTicketSales (data : Option (List TicketRecord)) : Option ComparisonMetric :=
  match data with
  | none => none
  | some l =>
    if l.isEmpty then none
    else
      match l.find? (fun item => item.fiscal_year == "This Season"),
            l.find? (fun item => item.fiscal_year == "Last Season") with
      | some currentFY, some previousFY =>
        let revenueAbsoluteChange := currentFY.total_paid_no_tax - previousFY.total_paid_no_tax
        let revenuePercentChange :=
          if previousFY.total_paid_no_tax > 0 then
            revenueAbsoluteChange / previousFY.total_paid_no_tax * 100
          else 0
        let quantityAbsoluteChange := currentFY.quantity_total - previousFY.quantity_total
        let quantityPercentChange :=
          if previousFY.quantity_total > 0 then
            quantityAbsoluteChange / previousFY.quantity_total * 100
          else 0
        some
          { currentSeason :=
              ⟨currentFY.fiscal_year, currentFY.total_paid_no_tax, currentFY.quantity_total⟩
            lastSeason :=
              ⟨previousFY.fiscal_year, previousFY.total_paid_no_tax, previousFY.quantity_total⟩
            revenueComparison := ⟨revenuePercentChange, revenueAbsoluteChange⟩
            quantityComparison := ⟨quantityPercentChange, quantityAbsoluteChange⟩ }
      | _, _ => none

/-- `transformSeasonPassSales`: same shape as `transformTicketSales` but the
comparison key is `Fiscal_Year` with values `FY26`/`FY25` and the measures
are `Amount`/`Quantity`. -/
def transformSeasonPassSales (data : Option (List PassRecord)) : Option ComparisonMetric :=
  match data with
  | none => none
  | some l =>
    if l.isEmpty then none
    else
      match l.find? (fun item => item.Fiscal_Year == "FY26"),
            l.find? (fun item => item.Fiscal_Year == "FY25") with
      | some currentFY, some previousFY =>
        let revenueAbsoluteChange := currentFY.Amount - previousFY.Amount
        let revenuePercentChange :=
          if previousFY.Amount > 0 then revenueAbsoluteChange / previousFY.Amount * 100 else 0
        let quantityAbsoluteChange := currentFY.Quantity - previousFY.Quantity
        let quantityPercentChange :=
          if previousFY.Quantity > 0 then quantityAbsoluteChange / previousFY.Quantity * 100 else 0
        some
          { currentSeason := ⟨currentFY.Fiscal_Year, currentFY.Amount, currentFY.Quantity⟩
            lastSeason := ⟨previousFY.Fiscal_Year, previousFY.Amount, previousFY.Quantity⟩
            revenueComparison := ⟨revenuePercentChange, revenueAbsoluteChange⟩
            quantityComparison := ⟨quantityPercentChange, quantityAbsoluteChange⟩ }
      | _, _ => none

end GmDash

namespace GmDash

/-! ## Claims C3 and C7: the comparison normalizers -/

/-- C3: for every input array containing both the current-period and the
previous-period record, both comparison normalizers compute
`percentChange = (current - previous) / previous * 100` exactly when the
previous-period value is positive and `0` otherwise, for the revenue
measure and for the quantity measure. -/
theorem c3_percentChange_formula
    (tl : List TicketRecord) (tc tp : TicketRecord)
    (h1 : tl.find? (fun item => item.fiscal_year == "This Season") = some tc)
    (h2 : tl.find? (fun item => item.fiscal_year == "Last Season") = some tp)
    (pl : List PassRecord) (pc pp : PassRecord)
    (h3 : pl.find? (fun item => item.Fiscal_Year == "FY26") = some pc)
    (h4 : pl.find? (fun item => item.Fiscal_Year == "FY25") = some pp) :
    (∃ m, transformTicketSales (some tl) = some m ∧
        m.revenueComparison.percentChange =
          (if tp.total_paid_no_tax > 0 then
            (tc.total_paid_no_tax - tp.total_paid_no_tax) / tp.total_paid_no_tax * 100
          else 0) ∧
        m.quantityComparison.percentChange =
          (if tp.quantity_total > 0 then
            (tc.quantity_total - tp.quantity_total) / tp.quantity_total * 100
          else 0)) ∧
    (∃ m, transformSeasonPassSales (some pl) = some m ∧
        m.revenueComparison.percentChange =
          (if pp.Amount > 0 then (pc.Amount - pp.Amount) / pp.Amount * 100 else 0) ∧
        m.quantityComparison.percentChange =
          (if pp.Quantity > 0 then (pc.Quantity - pp.Quantity) / pp.Quantity * 100 else 0)) := by
  have htl : tl.isEmpty = false := by
    cases tl with
    | nil => simp at h1
    | cons a t => rfl
  have hpl : pl.isEmpty = false := by
    cases pl with
    | nil => simp at h3
    | cons a t => rfl
  constructor
  · refine
      ⟨{ currentSeason := ⟨tc.fiscal_year, tc.total_paid_no_tax, tc.quantity_total⟩
         lastSeason := ⟨tp.fiscal_year, tp.total_paid_no_tax, tp.quantity_total⟩
         revenueComparison :=
           ⟨if tp.total_paid_no_tax > 0 then
              (tc.total_paid_no_tax - tp.total_paid_no_tax) / tp.total_paid_no_tax * 100
            else 0, tc.total_paid_no_tax - tp.total_paid_no_tax⟩
         quantityComparison :=
           ⟨if tp.quantity_total > 0 then
              (tc.quantity_total - tp.quantity_total) / tp.quantity_total * 100
            else 0, tc.quantity_total - tp.quantity_total⟩ }, ?_, rfl, rfl⟩
    simp only [transformTicketSales, htl, h1, h2, Bool.false_eq_true, if_false]
  · refine
      ⟨{ currentSeason := ⟨pc.Fiscal_Year, pc.Amount, pc.Quantity⟩
         lastSeason := ⟨pp.Fiscal_Year, pp.Amount, pp.Quantity⟩
         revenueComparison :=
           ⟨if pp.Amount > 0 then (pc.Amount - pp.Amount) / pp.Amount * 100 else 0,
            pc.Amount - pp.Amount⟩
         quantityComparison :=
           ⟨if pp.Quantity > 0 then (pc.Quantity - pp.Quantity) / pp.Quantity * 100 else 0,
            pc.Quantity - pp.Quantity⟩ }, ?_, rfl, rfl⟩
    simp only [transformSeasonPassSales, hpl, h3, h4, Bool.false_eq_true, if_false]

/-- Witness for C3 at a concrete pair of payloads. -/
theorem c3_percentChange_formula_witness :
    (∃ m, transformTicketSales
        (some [⟨"This Season", 150, 15⟩, ⟨"Last Season", 100, 10⟩]) = some m ∧
        m.revenueComparison.percentChange =
          (if (100 : ℚ) > 0 then ((150 : ℚ) - 100) / 100 * 100 else 0) ∧
        m.quantityComparison.percentChange =
          (if (10 : ℚ) > 0 then ((15 : ℚ) - 10) / 10 * 100 else 0)) ∧
    (∃ m, transformSeasonPassSales
        (some [⟨"FY26", 900, 90⟩, ⟨"FY25", 600, 60⟩]) = some m ∧
        m.revenueComparison.percentChange =
          (if (600 : ℚ) > 0 then ((900 : ℚ) - 600) / 600 * 100 else 0) ∧
        m.quantityComparison.percentChange =
          (if (60 : ℚ) > 0 then ((90 : ℚ) - 60) / 60 * 100 else 0)) :=
  c3_percentChange_formula
    [⟨"This Season", 150, 15⟩, ⟨"Last Season", 100, 10⟩]
    ⟨"This Season", 150, 15⟩ ⟨"Last Season", 100, 10⟩
    (by simp [List.find?]) (by simp [List.find?])
    [⟨"FY26", 900, 90⟩, ⟨"FY25", 600, 60⟩]
    ⟨"FY26", 900, 90⟩ ⟨"FY25", 600, 60⟩
    (by simp [List.find?]) (by simp [List.find?])

/-- C7: the comparison normalizers return `null` exactly when the input is
absent / not an array (both modelled by `none`), an empty array, or an array
lacking the current-period or the previous-period record.  Both functions
are total here, so no exception is possible on any input of the model. -/
theorem c7_comparison_null_exactly :
    (∀ data : Option (List TicketRecord),
        transformTicketSales data = none ↔
          data = none ∨ ∃ l, data = some l ∧
            (l = [] ∨
              l.find? (fun item => item.fiscal_year == "This Season") = none ∨
              l.find? (fun item => item.fiscal_year == "Last Season") = none)) ∧
    (∀ data : Option (List PassRecord),
        transformSeasonPassSales data = none ↔
          data = none ∨ ∃ l, data = some l ∧
            (l = [] ∨
              l.find? (fun item => item.Fiscal_Year == "FY26") = none ∨
              l.find? (fun item => item.Fiscal_Year == "FY25") = none)) := by
  constructor
  · intro data
    cases data with
    | none => simp [transformTicketSales]
    | some l =>
      cases l with
      | nil => simp [transformTicketSales]
      | cons a t =>
        rcases hc : (a :: t).find? (fun item => item.fiscal_year == "This Season") with _ | c <;>
          rcases hp : (a :: t).find? (fun item => item.fiscal_year == "Last Season") with _ | p <;>
            · simp only [transformTicketSales, Option.some.injEq, exists_eq_left', hc, hp]
              simp
  · intro data
    cases data with
    | none => simp [transformSeasonPassSales]
    | some l =>
      cases l with
      | nil => simp [transformSeasonPassSales]
      | cons a t =>
        rcases hc : (a :: t).find? (fun item => item.Fiscal_Year == "FY26") with _ | c <;>
          rcases hp : (a :: t).find? (fun item => item.Fiscal_Year == "FY25") with _ | p <;>
            · simp only [transformSeasonPassSales, Option.some.injEq, exists_eq_left', hc, hp]
              simp

end GmDash

namespace GmDash

/-! ## `transformLabor` — the consolidating labor normalizer

Embeds the `transformLabor` of the data-transformers module that folds raw
division records into the four canonical buckets (the variant whose
`forEach` consolidation appears in the data-transformers source). -/

/-- A raw labor record: the code reads `division.division ||
division.divisionName || ''` for the name and defaults the three numeric
fields with `|| 0`. -/
structure LaborRecord where
  division : Option String
  divisionName : Option String
  totalLabor : Option ℚ
  totalHours : Option ℚ
  revenue : Option ℚ
deriving DecidableEq

/-- The `guestServicesDivisions` alias list. -/
def guestServicesDivisions : List String :=
  ["Ski School", "Indoor Guest Services", "Outdoor Guest Services"]

/-- The `hospitalityDivisions` alias list. -/
def hospitalityDivisions : List String := ["Lodging", "Community Services"]

/-- `matchesDivision(divisionName, targetNames)`: case-insensitive flexible
matching — equality, or containment in either direction, after trimming.
The source's `divisionName?.trim() || ''` is the plain trim here because the
argument is always a present string at the call sites and `|| ''` is the
identity on strings that are already `''`. -/
def matchesDivision (divisionName : String) (targetNames : List String) : Bool :=
  let normalized := jsTrim divisionName
  targetNames.any fun target =>
    jsToLower normalized == jsToLower target ||
    jsIncludes (jsToLower normalized) (jsToLower target) ||
    jsIncludes (jsToLower target) (jsToLower normalized)

/-- The four canonical buckets of the `consolidated` object literal. -/
inductive Bucket
  | guestServices
  | hospitality
  | mountainOperations
  | foodBeverage
deriving DecidableEq

/-- The `division` label of each bucket. -/
def bucketLabel : Bucket → String
  | .guestServices => "Guest Services"
  | .hospitality => "Hospitality"
  | .mountainOperations => "Mountain Operations"
  | .foodBeverage => "Food & Beverage"

/-- The name each record is matched on:
`division.division || division.divisionName || ''`. -/
def laborDivName (r : LaborRecord) : String :=
  jsStrOr r.division (jsStrOr r.divisionName "")

/-- The `if / else if` chain of the `forEach` body, as the bucket a record
is assigned to (`none` = the record matches no alias and is ignored).
The chain order gives Guest Services priority, then Hospitality, then
Mountain Operations, then Food & Beverage. -/
def laborBucketOf (r : LaborRecord) : Option Bucket :=
  let divName := laborDivName r
  if matchesDivision divName guestServicesDivisions then some .guestServices
  else if matchesDivision divName hospitalityDivisions then some .hospitality
  else if matchesDivision divName ["Mountain Operations"] then some .mountainOperations
  else if matchesDivision divName ["Food & Beverage", "Food and Beverage", "F&B"] then
    some .foodBeverage
  else none

/-- One bucket of the `consolidated` accumulator. -/
structure ConsolidatedDiv where
  division : String
  totalLabor : ℚ
  totalHours : ℚ
  revenue : ℚ
deriving DecidableEq

/-- The initial `consolidated` object: all four buckets at zero. -/
def initConsolidated : Bucket → ConsolidatedDiv :=
  fun b => ⟨bucketLabel b, 0, 0, 0⟩

/-- Adding one record's (defaulted) figures into a bucket. -/
def addRecord (c : ConsolidatedDiv) (r : LaborRecord) : ConsolidatedDiv :=
  { c with
    totalLabor := c.totalLabor + orZero r.totalLabor
    totalHours := c.totalHours + orZero r.totalHours
    revenue := c.revenue + orZero r.revenue }

/-- One iteration of the `forEach` over the raw records. -/
def consolidateStep (acc : Bucket → ConsolidatedDiv) (r : LaborRecord) :
    Bucket → ConsolidatedDiv :=
  match laborBucketOf r with
  | none => acc
  | some b => Function.update acc b (addRecord (acc b) r)

/-- An element of `byDivision` (a consolidated bucket plus its
`percentOfRevenue`). -/
structure DivisionEntry where
  division : String
  totalLabor : ℚ
  totalHours : ℚ
  revenue : ℚ
  percentOfRevenue : ℚ
deriving DecidableEq

/-- The `Object.values(consolidated).map(...)` body: percent of revenue,
rounded to two decimals, `0` before rounding when revenue is not positive. -/
def mkDivisionEntry (c : ConsolidatedDiv) : DivisionEntry :=
  let divPercentOfRevenue := if c.revenue > 0 then c.totalLabor / c.revenue * 100 else 0
  ⟨c.division, c.totalLabor, c.totalHours, c.revenue, round2 divPercentOfRevenue⟩

/-- The `LaborSummary` returned by `transformLabor`. -/
structure LaborSummary where
  totalLabor : ℚ
  totalHours : ℚ
  totalRevenue : ℚ
  percentOfRevenue : ℚ
  byDivision : List DivisionEntry
deriving DecidableEq

/-- Insertion order of the `consolidated` object literal, which is the
order `Object.values` returns. -/
def bucketOrder : List Bucket :=
  [.guestServices, .hospitality, .mountainOperations, .foodBeverage]

/-- `transformLabor`: `null`/non-array (`none`) or empty input gives `null`;
otherwise the records are folded into the four buckets, `byDivision` is built
from the buckets in insertion order, and the totals are summed over the
consolidated buckets (so unmatched records are absent from every total). -/
def transformLabor (data : Option (List LaborRecord)) : Option LaborSummary :=
  match data with
  | none => none
  | some l =>
    if l.isEmpty then none
    else
      let consolidated := l.foldl consolidateStep initConsolidated
      let byDivision := bucketOrder.map (fun b => mkDivisionEntry (consolidated b))
      let totalLabor := (byDivision.map (fun d => d.totalLabor)).sum
      let totalHours := (byDivision.map (fun d => d.totalHours)).sum
      let totalRevenue := (byDivision.map (fun d => d.revenue)).sum
      let overallPercentOfRevenue :=
        if totalRevenue > 0 then totalLabor / totalRevenue * 100 else 0
      some ⟨totalLabor, totalHours, totalRevenue, round2 overallPercentOfRevenue, byDivision⟩

/-- `Math.round(0 * 100) / 100 = 0`. -/
theorem round2_zero : round2 0 = 0 := by
  have h0 : jsRound (0 : ℚ) = 0 := by
    simp [jsRound]
    norm_num
  simp [round2, h0]

/-- `''` is a substring of every string (`hay.includes('')` is true). -/
theorem containsL_nil (l : List Char) : containsL l [] = true := by
  cases l <;> simp [containsL, startsL, List.isEmpty]

/-- What the `forEach` fold computes, bucket by bucket: each bucket keeps
its label and accumulates exactly the figures of the records the `if`-chain
assigns to it, in list order. -/
theorem foldl_consolidate_spec (l : List LaborRecord) :
    ∀ (acc : Bucket → ConsolidatedDiv) (b : Bucket),
    ((l.foldl consolidateStep acc) b).division = (acc b).division ∧
    ((l.foldl consolidateStep acc) b).totalLabor =
      (acc b).totalLabor +
        ((l.filter fun r => decide (laborBucketOf r = some b)).map
          fun r => orZero r.totalLabor).sum ∧
    ((l.foldl consolidateStep acc) b).totalHours =
      (acc b).totalHours +
        ((l.filter fun r => decide (laborBucketOf r = some b)).map
          fun r => orZero r.totalHours).sum ∧
    ((l.foldl consolidateStep acc) b).revenue =
      (acc b).revenue +
        ((l.filter fun r => decide (laborBucketOf r = some b)).map
          fun r => orZero r.revenue).sum := by
  induction l with
  | nil => intro acc b; simp
  | cons r t ih =>
    intro acc b
    rcases hb : laborBucketOf r with _ | b'
    · have hstep : consolidateStep acc r = acc := by
        simp [consolidateStep, hb]
      have hfilt : (r :: t).filter (fun x => decide (laborBucketOf x = some b)) =
          t.filter (fun x => decide (laborBucketOf x = some b)) := by
        simp [List.filter_cons, hb]
      rw [List.foldl_cons, hstep, hfilt]
      exact ih acc b
    · by_cases hbb : b' = b
      · subst hbb
        have hstep : consolidateStep acc r =
            Function.update acc b' (addRecord (acc b') r) := by
          simp [consolidateStep, hb]
        have hfilt : (r :: t).filter (fun x => decide (laborBucketOf x = some b')) =
            r :: t.filter (fun x => decide (laborBucketOf x = some b')) := by
          simp [List.filter_cons, hb]
        obtain ⟨ih1, ih2, ih3, ih4⟩ :=
          ih (Function.update acc b' (addRecord (acc b') r)) b'
        rw [Function.update_same] at ih1 ih2 ih3 ih4
        rw [List.foldl_cons, hstep, hfilt]
        refine ⟨?_, ?_, ?_, ?_⟩
        · rw [ih1]; rfl
        · rw [ih2]; show (acc b').totalLabor + orZero r.totalLabor + _ = _
          rw [List.map_cons, List.sum_cons, add_assoc]
        · rw [ih3]; show (acc b').totalHours + orZero r.totalHours + _ = _
          rw [List.map_cons, List.sum_cons, add_assoc]
        · rw [ih4]; show (acc b').revenue + orZero r.revenue + _ = _
          rw [List.map_cons, List.sum_cons, add_assoc]
      · have hstep : consolidateStep acc r =
            Function.update acc b' (addRecord (acc b') r) := by
          simp [consolidateStep, hb]
        have hfilt : (r :: t).filter (fun x => decide (laborBucketOf x = some b)) =
            t.filter (fun x => decide (laborBucketOf x = some b)) := by
          simp [List.filter_cons, hb, hbb]
        rw [List.foldl_cons, hstep, hfilt]
        have hupd := ih (Function.update acc b' (addRecord (acc b') r)) b
        rwa [Function.update_noteq (fun h => hbb h.symm)] at hupd

/-- Summing over all matched records equals summing bucket by bucket. -/
theorem filter_matched_partition (l : List LaborRecord) (f : LaborRecord → ℚ) :
    ((l.filter fun r => (laborBucketOf r).isSome).map f).sum =
      ((l.filter fun r => decide (laborBucketOf r = some Bucket.guestServices)).map f).sum +
      ((l.filter fun r => decide (laborBucketOf r = some Bucket.hospitality)).map f).sum +
      ((l.filter fun r =>
        decide (laborBucketOf r = some Bucket.mountainOperations)).map f).sum +
      ((l.filter fun r => decide (laborBucketOf r = some Bucket.foodBeverage)).map f).sum := by
  induction l with
  | nil => simp
  | cons r t ih =>
    rcases hb : laborBucketOf r with _ | b
    · simp only [List.filter_cons, hb]
      simpa using ih
    · cases b <;>
        · simp only [List.filter_cons, hb]
          simp [ih]
          ring

end GmDash

namespace GmDash

/-! ## Claims C2, C8 and C10: the labor normalizer -/

/-- Rounding distributes over the guarded percentage: when the guard fails
the pre-rounding value is `0` and `round2 0 = 0`. -/
theorem round2_ite (P : Prop) [Decidable P] (x : ℚ) :
    round2 (if P then x else 0) = if P then round2 x else 0 := by
  by_cases h : P <;> simp [h, round2_zero]

/-- C2: on every non-empty input the labor normalizer returns a summary
whose `byDivision` consists of exactly the four canonical buckets in order;
each bucket sums `totalLabor`, `totalHours` and `revenue` over precisely the
records the first-match alias chain assigns to it; the overall totals range
over exactly the matched records (so unmatched records are excluded from all
totals); and a record matching the Guest-Services aliases is assigned to
Guest Services regardless of any later bucket it might also match. -/
theorem c2_transformLabor_consolidation (l : List LaborRecord) (hne : l ≠ []) :
    ∃ s, transformLabor (some l) = some s ∧
      s.byDivision.map (fun e => e.division) =
        ["Guest Services", "Hospitality", "Mountain Operations", "Food & Beverage"] ∧
      (∀ b : Bucket, ∃ e ∈ s.byDivision, e.division = bucketLabel b ∧
          e.totalLabor =
            ((l.filter fun r => decide (laborBucketOf r = some b)).map
              fun r => orZero r.totalLabor).sum ∧
          e.totalHours =
            ((l.filter fun r => decide (laborBucketOf r = some b)).map
              fun r => orZero r.totalHours).sum ∧
          e.revenue =
            ((l.filter fun r => decide (laborBucketOf r = some b)).map
              fun r => orZero r.revenue).sum) ∧
      s.totalLabor =
        ((l.filter fun r => (laborBucketOf r).isSome).map fun r => orZero r.totalLabor).sum ∧
      s.totalHours =
        ((l.filter fun r => (laborBucketOf r).isSome).map fun r => orZero r.totalHours).sum ∧
      s.totalRevenue =
        ((l.filter fun r => (laborBucketOf r).isSome).map fun r => orZero r.revenue).sum ∧
      ∀ r : LaborRecord, matchesDivision (laborDivName r) guestServicesDivisions = true →
        laborBucketOf r = some Bucket.guestServices := by
  have hE : l.isEmpty = false := by
    cases l with
    | nil => exact absurd rfl hne
    | cons a t => rfl
  have hdiv : ∀ b : Bucket,
      ((l.foldl consolidateStep initConsolidated) b).division = bucketLabel b :=
    fun b => (foldl_consolidate_spec l initConsolidated b).1
  have hlab : ∀ b : Bucket,
      ((l.foldl consolidateStep initConsolidated) b).totalLabor =
        ((l.filter fun r => decide (laborBucketOf r = some b)).map
          fun r => orZero r.totalLabor).sum := by
    intro b
    have h := (foldl_consolidate_spec l initConsolidated b).2.1
    simpa [initConsolidated] using h
  have hhrs : ∀ b : Bucket,
      ((l.foldl consolidateStep initConsolidated) b).totalHours =
        ((l.filter fun r => decide (laborBucketOf r = some b)).map
          fun r => orZero r.totalHours).sum := by
    intro b
    have h := (foldl_consolidate_spec l initConsolidated b).2.2.1
    simpa [initConsolidated] using h
  have hrev : ∀ b : Bucket,
      ((l.foldl consolidateStep initConsolidated) b).revenue =
        ((l.filter fun r => decide (laborBucketOf r = some b)).map
          fun r => orZero r.revenue).sum := by
    intro b
    have h := (foldl_consolidate_spec l initConsolidated b).2.2.2
    simpa [initConsolidated] using h
  have heq : transformLabor (some l) =
      some ⟨((bucketOrder.map fun b =>
                mkDivisionEntry ((l.foldl consolidateStep initConsolidated) b)).map
              fun d => d.totalLabor).sum,
            ((bucketOrder.map fun b =>
                mkDivisionEntry ((l.foldl consolidateStep initConsolidated) b)).map
              fun d => d.totalHours).sum,
            ((bucketOrder.map fun b =>
                mkDivisionEntry ((l.foldl consolidateStep initConsolidated) b)).map
              fun d => d.revenue).sum,
            round2 (if ((bucketOrder.map fun b =>
                  mkDivisionEntry ((l.foldl consolidateStep initConsolidated) b)).map
                fun d => d.revenue).sum > 0 then
                ((bucketOrder.map fun b =>
                    mkDivisionEntry ((l.foldl consolidateStep initConsolidated) b)).map
                  fun d => d.totalLabor).sum /
                  ((bucketOrder.map fun b =>
                      mkDivisionEntry ((l.foldl consolidateStep initConsolidated) b)).map
                    fun d => d.revenue).sum * 100
              else 0),
            bucketOrder.map fun b =>
              mkDivisionEntry ((l.foldl consolidateStep initConsolidated) b)⟩ := by
    simp only [transformLabor, hE, Bool.false_eq_true, if_false]
  refine ⟨_, heq, ?_, ?_, ?_, ?_, ?_, ?_⟩
  · simp [bucketOrder, mkDivisionEntry, hdiv, bucketLabel]
  · intro b
    refine ⟨mkDivisionEntry ((l.foldl consolidateStep initConsolidated) b),
      List.mem_map_of_mem _ (by cases b <;> simp [bucketOrder]), ?_, ?_, ?_, ?_⟩
    · exact hdiv b
    · exact hlab b
    · exact hhrs b
    · exact hrev b
  · rw [filter_matched_partition]
    simp only [bucketOrder, List.map_cons, List.map_nil, List.sum_cons, List.sum_nil,
      mkDivisionEntry, hlab]
    ring
  · rw [filter_matched_partition]
    simp only [bucketOrder, List.map_cons, List.map_nil, List.sum_cons, List.sum_nil,
      mkDivisionEntry, hhrs]
    ring
  · rw [filter_matched_partition]
    simp only [bucketOrder, List.map_cons, List.map_nil, List.sum_cons, List.sum_nil,
      mkDivisionEntry, hrev]
    ring
  · intro r hm
    simp [laborBucketOf, hm]

end GmDash

namespace GmDash

/-- A concrete labor payload for instantiating the consolidation theorem:
one record matching the Guest-Services aliases and one matching nothing. -/
def c2SampleLabor : List LaborRecord :=
  [⟨some "Ski School", none, some 10, some 4, some 100⟩,
   ⟨some "Warehouse", none, some 3, some 1, some 9⟩]

/-- Witness for C2 at a concrete two-record payload. -/
theorem c2_transformLabor_consolidation_witness :
    c2SampleLabor ≠ [] ∧
    ∃ s, transformLabor (some c2SampleLabor) = some s ∧
      s.byDivision.map (fun e => e.division) =
        ["Guest Services", "Hospitality", "Mountain Operations", "Food & Beverage"] ∧
      (∀ b : Bucket, ∃ e ∈ s.byDivision, e.division = bucketLabel b ∧
          e.totalLabor =
            ((c2SampleLabor.filter fun r => decide (laborBucketOf r = some b)).map
              fun r => orZero r.totalLabor).sum ∧
          e.totalHours =
            ((c2SampleLabor.filter fun r => decide (laborBucketOf r = some b)).map
              fun r => orZero r.totalHours).sum ∧
          e.revenue =
            ((c2SampleLabor.filter fun r => decide (laborBucketOf r = some b)).map
              fun r => orZero r.revenue).sum) ∧
      s.totalLabor =
        ((c2SampleLabor.filter fun r => (laborBucketOf r).isSome).map
          fun r => orZero r.totalLabor).sum ∧
      s.totalHours =
        ((c2SampleLabor.filter fun r => (laborBucketOf r).isSome).map
          fun r => orZero r.totalHours).sum ∧
      s.totalRevenue =
        ((c2SampleLabor.filter fun r => (laborBucketOf r).isSome).map
          fun r => orZero r.revenue).sum ∧
      ∀ r : LaborRecord, matchesDivision (laborDivName r) guestServicesDivisions = true →
        laborBucketOf r = some Bucket.guestServices :=
  ⟨by simp [c2SampleLabor], c2_transformLabor_consolidation c2SampleLabor (by simp [c2SampleLabor])⟩

/-- `percentOfRevenue` of one `byDivision` entry satisfies the guarded
rounding property, stated on the entry's own fields. -/
theorem mkDivisionEntry_percent (c : ConsolidatedDiv) :
    (mkDivisionEntry c).percentOfRevenue =
      if (mkDivisionEntry c).revenue > 0 then
        round2 ((mkDivisionEntry c).totalLabor / (mkDivisionEntry c).revenue * 100)
      else 0 := by
  show round2 (if c.revenue > 0 then c.totalLabor / c.revenue * 100 else 0) = _
  exact round2_ite _ _

/-- C8: in every summary the labor normalizer produces, each division
entry's `percentOfRevenue` is `labor / revenue * 100` rounded to two
decimals when that entry's revenue is positive and exactly `0` otherwise,
and the same holds for the aggregate computed from the summed totals. -/
theorem c8_percentOfRevenue (l : List LaborRecord) (s : LaborSummary)
    (hs : transformLabor (some l) = some s) :
    (∀ e ∈ s.byDivision,
        e.percentOfRevenue =
          if e.revenue > 0 then round2 (e.totalLabor / e.revenue * 100) else 0) ∧
    s.percentOfRevenue =
      if s.totalRevenue > 0 then round2 (s.totalLabor / s.totalRevenue * 100) else 0 := by
  rcases l with _ | ⟨a, t⟩
  · simp [transformLabor] at hs
  · simp only [transformLabor, List.isEmpty_cons, Bool.false_eq_true, if_false,
      Option.some.injEq] at hs
    subst hs
    constructor
    · intro e he
      simp only [List.mem_map] at he
      obtain ⟨b, _, rfl⟩ := he
      exact mkDivisionEntry_percent _
    · exact round2_ite _ _

/-- Witness for C8: a one-record payload whose division matches no alias,
so every bucket and every total is zero. -/
theorem c8_percentOfRevenue_witness :
    transformLabor (some [⟨some "Warehouse", none, some 3, some 1, some 9⟩]) =
      some ⟨0, 0, 0, 0,
        [⟨"Guest Services", 0, 0, 0, 0⟩, ⟨"Hospitality", 0, 0, 0, 0⟩,
         ⟨"Mountain Operations", 0, 0, 0, 0⟩, ⟨"Food & Beverage", 0, 0, 0, 0⟩]⟩ ∧
    ((∀ e ∈ (LaborSummary.mk 0 0 0 0
        [⟨"Guest Services", 0, 0, 0, 0⟩, ⟨"Hospitality", 0, 0, 0, 0⟩,
         ⟨"Mountain Operations", 0, 0, 0, 0⟩, ⟨"Food & Beverage", 0, 0, 0, 0⟩]).byDivision,
        e.percentOfRevenue =
          if e.revenue > 0 then round2 (e.totalLabor / e.revenue * 100) else 0) ∧
      (LaborSummary.mk 0 0 0 0
        [⟨"Guest Services", 0, 0, 0, 0⟩, ⟨"Hospitality", 0, 0, 0, 0⟩,
         ⟨"Mountain Operations", 0, 0, 0, 0⟩, ⟨"Food & Beverage", 0, 0, 0, 0⟩]).percentOfRevenue =
        if (LaborSummary.mk 0 0 0 0
            [⟨"Guest Services", 0, 0, 0, 0⟩, ⟨"Hospitality", 0, 0, 0, 0⟩,
             ⟨"Mountain Operations", 0, 0, 0, 0⟩,
             ⟨"Food & Beverage", 0, 0, 0, 0⟩]).totalRevenue > 0 then
          round2 ((LaborSummary.mk 0 0 0 0
            [⟨"Guest Services", 0, 0, 0, 0⟩, ⟨"Hospitality", 0, 0, 0, 0⟩,
             ⟨"Mountain Operations", 0, 0, 0, 0⟩,
             ⟨"Food & Beverage", 0, 0, 0, 0⟩]).totalLabor /
            (LaborSummary.mk 0 0 0 0
              [⟨"Guest Services", 0, 0, 0, 0⟩, ⟨"Hospitality", 0, 0, 0, 0⟩,
               ⟨"Mountain Operations", 0, 0, 0, 0⟩,
               ⟨"Food & Beverage", 0, 0, 0, 0⟩]).totalRevenue * 100)
        else 0) := by
  have hb : laborBucketOf ⟨some "Warehouse", none, some 3, some 1, some 9⟩ = none := by
    decide
  have hs : transformLabor (some [⟨some "Warehouse", none, some 3, some 1, some 9⟩]) =
      some ⟨0, 0, 0, 0,
        [⟨"Guest Services", 0, 0, 0, 0⟩, ⟨"Hospitality", 0, 0, 0, 0⟩,
         ⟨"Mountain Operations", 0, 0, 0, 0⟩, ⟨"Food & Beverage", 0, 0, 0, 0⟩]⟩ := by
    simp [transformLabor, consolidateStep, hb, bucketOrder, mkDivisionEntry,
      initConsolidated, bucketLabel, round2_zero]
  exact ⟨hs, c8_percentOfRevenue _ _ hs⟩

end GmDash


namespace GmDash

/-- Unfolding of `transformLabor` on a non-empty list: the summary built
from the consolidated buckets. -/
theorem transformLabor_unfold (l : List LaborRecord) (hE : l.isEmpty = false) :
    transformLabor (some l) =
      some ⟨((bucketOrder.map fun b =>
                mkDivisionEntry ((l.foldl consolidateStep initConsolidated) b)).map
              fun d => d.totalLabor).sum,
            ((bucketOrder.map fun b =>
                mkDivisionEntry ((l.foldl consolidateStep initConsolidated) b)).map
              fun d => d.totalHours).sum,
            ((bucketOrder.map fun b =>
                mkDivisionEntry ((l.foldl consolidateStep initConsolidated) b)).map
              fun d => d.revenue).sum,
            round2 (if ((bucketOrder.map fun b =>
                  mkDivisionEntry ((l.foldl consolidateStep initConsolidated) b)).map
                fun d => d.revenue).sum > 0 then
                ((bucketOrder.map fun b =>
                    mkDivisionEntry ((l.foldl consolidateStep initConsolidated) b)).map
                  fun d => d.totalLabor).sum /
                  ((bucketOrder.map fun b =>
                      mkDivisionEntry ((l.foldl consolidateStep initConsolidated) b)).map
                    fun d => d.revenue).sum * 100
              else 0),
            bucketOrder.map fun b =>
              mkDivisionEntry ((l.foldl consolidateStep initConsolidated) b)⟩ := by
  simp only [transformLabor, hE, Bool.false_eq_true, if_false]

/-- C10: a record whose division name is absent or empty after trimming is
assigned to the first bucket checked — Guest Services — because the alias
match also tests whether the alias contains the record's name, and every
string contains the empty string; its figures are therefore added to the
Guest-Services bucket rather than dropped. -/
theorem c10_empty_division_guest_services (r : LaborRecord) (rest : List LaborRecord)
    (h : jsTrim (laborDivName r) = "") :
    laborBucketOf r = some Bucket.guestServices ∧
    ∃ s, transformLabor (some (r :: rest)) = some s ∧
      ∃ e ∈ s.byDivision, e.division = "Guest Services" ∧
        e.totalLabor = orZero r.totalLabor +
          ((rest.filter fun x => decide (laborBucketOf x = some Bucket.guestServices)).map
            fun x => orZero x.totalLabor).sum ∧
        e.totalHours = orZero r.totalHours +
          ((rest.filter fun x => decide (laborBucketOf x = some Bucket.guestServices)).map
            fun x => orZero x.totalHours).sum ∧
        e.revenue = orZero r.revenue +
          ((rest.filter fun x => decide (laborBucketOf x = some Bucket.guestServices)).map
            fun x => orZero x.revenue).sum := by
  have hm : matchesDivision (laborDivName r) guestServicesDivisions = true := by
    simp only [matchesDivision, h]
    decide
  have hb : laborBucketOf r = some Bucket.guestServices := by
    simp [laborBucketOf, hm]
  have hfilt : (r :: rest).filter (fun x => decide (laborBucketOf x = some Bucket.guestServices)) =
      r :: rest.filter (fun x => decide (laborBucketOf x = some Bucket.guestServices)) := by
    simp [List.filter_cons, hb]
  refine ⟨hb, ?_⟩
  refine ⟨_, transformLabor_unfold (r :: rest) rfl, ?_⟩
  refine ⟨mkDivisionEntry
      (((r :: rest).foldl consolidateStep initConsolidated) Bucket.guestServices),
    List.mem_map_of_mem _ (by simp [bucketOrder]), ?_, ?_, ?_, ?_⟩
  · exact (foldl_consolidate_spec (r :: rest) initConsolidated Bucket.guestServices).1
  · show (((r :: rest).foldl consolidateStep initConsolidated)
      Bucket.guestServices).totalLabor = _
    rw [(foldl_consolidate_spec (r :: rest) initConsolidated Bucket.guestServices).2.1, hfilt]
    simp [initConsolidated]
  · show (((r :: rest).foldl consolidateStep initConsolidated)
      Bucket.guestServices).totalHours = _
    rw [(foldl_consolidate_spec (r :: rest) initConsolidated Bucket.guestServices).2.2.1, hfilt]
    simp [initConsolidated]
  · show (((r :: rest).foldl consolidateStep initConsolidated)
      Bucket.guestServices).revenue = _
    rw [(foldl_consolidate_spec (r :: rest) initConsolidated Bucket.guestServices).2.2.2, hfilt]
    simp [initConsolidated]

/-- Witness for C10: a record with both name fields absent and rest empty. -/
theorem c10_empty_division_guest_services_witness :
    jsTrim (laborDivName ⟨none, none, some 7, some 2, some 40⟩) = "" ∧
    (laborBucketOf (⟨none, none, some 7, some 2, some 40⟩ : LaborRecord) =
        some Bucket.guestServices ∧
      ∃ s, transformLabor (some [(⟨none, none, some 7, some 2, some 40⟩ : LaborRecord)]) =
          some s ∧
        ∃ e ∈ s.byDivision, e.division = "Guest Services" ∧
          e.totalLabor = orZero (some 7) +
            ((([] : List LaborRecord).filter
                fun x => decide (laborBucketOf x = some Bucket.guestServices)).map
              fun x => orZero x.totalLabor).sum ∧
          e.totalHours = orZero (some 2) +
            ((([] : List LaborRecord).filter
                fun x => decide (laborBucketOf x = some Bucket.guestServices)).map
              fun x => orZero x.totalHours).sum ∧
          e.revenue = orZero (some 40) +
            ((([] : List LaborRecord).filter
                fun x => decide (laborBucketOf x = some Bucket.guestServices)).map
              fun x => orZero x.revenue).sum) :=
  ⟨by decide, c10_empty_division_guest_services ⟨none, none, some 7, some 2, some 40⟩ []
    (by decide)⟩

end GmDash

namespace GmDash

/-! ## The edge server (server.js) -/

/-- A filesystem entry at an absolute path: a regular file with its
contents, or a directory. -/
inductive FsEntry
  | file (content : String)
  | directory
deriving DecidableEq

/-- The filesystem the server runs against, keyed by absolute path
(`existsSync p` is `(fs p).isSome`, `statSync(p).isFile()` distinguishes
the constructors, `readFileSync` yields the file's content). -/
def Fs : Type := String → Option FsEntry

/-- Request headers; Node lower-cases incoming header names and the code
looks them up by lower-case key. -/
def Headers : Type := String → Option String

/-- The `mimeTypes` table of server.js. -/
def mimeTypes : List (String × String) :=
  [(".html", "text/html"), (".js", "application/javascript"), (".css", "text/css"),
   (".json", "application/json"), (".png", "image/png"), (".jpg", "image/jpeg"),
   (".gif", "image/gif"), (".svg", "image/svg+xml"), (".ico", "image/x-icon"),
   (".woff", "font/woff"), (".woff2", "font/woff2"), (".ttf", "font/ttf"),
   (".eot", "application/vnd.ms-fontobject")]

/-- The basename `path.extname` inspects: trailing slashes skipped, then the
last slash-separated component. -/
def extBase (p : String) : List Char :=
  ((p.toList.reverse.dropWhile fun c => c == '/').takeWhile fun c => c ≠ '/').reverse

/-- Node's `path.extname`: the basename from its last dot on; empty when
there is no dot, when the only dot leads a dotfile, or when the basename is
exactly `..`. -/
def extname (p : String) : String :=
  let b := extBase p
  let suff := (b.reverse.takeWhile fun c => c ≠ '.').reverse
  if suff.length = b.length then ""
  else if b.length - suff.length - 1 = 0 then ""
  else if b = ['.', '.'] then ""
  else String.mk (b.drop (b.length - suff.length - 1))

/-- A response the server writes: status code, `Content-Type` header and
body.  (`Content-Length` is always the byte length of the body and is not
tracked separately.) -/
structure Response where
  status : Nat
  contentType : Option String
  body : String
deriving DecidableEq

/-- `serveFile`: `404` when the path does not exist or is not a regular
file, otherwise `200` with the content and the mime type of the path's
extension (default `application/octet-stream`).  The `readFileSync` failure
path (`500`) cannot occur here because reading a present file always
succeeds in this model. -/
def serveFile (fs : Fs) (filePath : String) : Response :=
  match fs filePath with
  | none => ⟨404, some "text/plain", "404 Not Found"⟩
  | some .directory => ⟨404, some "text/plain", "404 Not Found"⟩
  | some (.file content) =>
    ⟨200, some ((mimeTypes.lookup (extname filePath)).getD "application/octet-stream"),
      content⟩

/-- The fixed upstream host of the `/api/n8n` proxy. -/
def n8nHost : String := "n8n-v2.mcp.hyperplane.dev"

/-- The upstream request `proxyToN8n` builds (the `options` object passed to
`httpsRequest`). -/
structure ProxyOptions where
  hostname : String
  port : Nat
  path : String
  method : String
  headers : Headers

/-- `proxyToN8n`'s request construction: strip the leading `/api/n8n`
prefix, parse the remainder as the target URL's pathname and query
(`new URL` yields pathname `/` for an empty remainder and an empty `search`
for a lone trailing `?`; WHATWG normalization of dot segments and
percent-encoding, which these request paths do not contain, is not
modelled), spread the incoming headers (overriding `host`), delete `host`
and `connection`, then re-attach `cookie` when the incoming request carried
one.  Streaming of the upstream response is not modelled; the claims are
about the request being built. -/
def proxyToN8n (method url : String) (reqHeaders : Headers) : ProxyOptions :=
  let proxyPath := if jsStartsWith url "/api/n8n" then url.drop 8 else url
  let pathnameRaw := beforeChar proxyPath '?'
  let search0 := fromChar proxyPath '?'
  let pathname := if pathnameRaw = "" then "/" else pathnameRaw
  let search := if search0 = "?" then "" else search0
  let h0 : Headers := fun k => if k = "host" then some n8nHost else reqHeaders k
  let h1 : Headers := fun k => if k = "host" ∨ k = "connection" then none else h0 k
  let h2 : Headers :=
    match reqHeaders "cookie" with
    | some c => fun k => if k = "cookie" then some c else h1 k
    | none => h1
  ⟨n8nHost, 443, pathname ++ search, method, h2⟩

/-- The asset root `join(__dirname, 'dist')`, abstracted to a fixed absolute
path. -/
def distPath : String := "/dist"

/-- What the request handler does with a request: a plain response, the
health-check JSON (built from the process clock, uptime and pid, abstracted
here), the CORS-preflight response (echoed origin, abstracted here), or an
upstream proxy request. -/
inductive HandlerResult
  | response (r : Response)
  | health
  | cors
  | proxy (o : ProxyOptions)

/-- The `createServer` request handler: OPTIONS preflight, then the health
check, then `/api/n8n` proxying, then static serving — `/` maps to
`/index.html`, the query string is stripped, a path containing `..` is
rejected with `403` before the asset root is consulted, a missing
extensionless path falls back to `index.html` when that exists, and
everything else is served from the asset root.  `join(distPath, filePath)`
is modelled as concatenation; request paths begin with `/`, for which the
two agree. -/
def handleRequest (fs : Fs) (method url : String) (reqHeaders : Headers) : HandlerResult :=
  if method = "OPTIONS" then .cors
  else if url = "/health" ∨ url = "/healthz" then .health
  else if jsStartsWith url "/api/n8n" then .proxy (proxyToN8n method url reqHeaders)
  else
    let filePath0 := if url = "/" then "/index.html" else url
    let filePath := beforeChar filePath0 '?'
    if jsIncludes filePath ".." then .response ⟨403, some "text/plain", "403 Forbidden"⟩
    else
      let fullPath := distPath ++ filePath
      if (fs fullPath).isNone ∧ extname filePath = "" then
        if (fs (distPath ++ "/index.html")).isSome then
          .response (serveFile fs (distPath ++ "/index.html"))
        else .response (serveFile fs fullPath)
      else .response (serveFile fs fullPath)

end GmDash

namespace GmDash

/-! ## Claim C4: the directory-traversal guard -/

/-- C4: every GET request not routed to the proxy whose path contains `..`
after query-string removal is answered `403 Forbidden`, for every state of
the filesystem — the response is a constant, so no path join, existence
check or file read can influence it (the guard fires before filesystem
resolution), regardless of the path's extension or of whether any file
exists. -/
theorem c4_traversal_guard_403 (fs : Fs) (url : String) (reqHeaders : Headers)
    (hproxy : jsStartsWith url "/api/n8n" = false)
    (hdot : jsIncludes (beforeChar url '?') ".." = true) :
    handleRequest fs "GET" url reqHeaders =
      .response ⟨403, some "text/plain", "403 Forbidden"⟩ := by
  have hne : url ≠ "/" := by
    rintro rfl
    exact absurd hdot (by decide)
  have hh1 : url ≠ "/health" := by
    rintro rfl
    exact absurd hdot (by decide)
  have hh2 : url ≠ "/healthz" := by
    rintro rfl
    exact absurd hdot (by decide)
  simp [handleRequest, hproxy, hne, hh1, hh2, hdot]

/-- Witness for C4: a concrete traversal attempt against an empty
filesystem. -/
theorem c4_traversal_guard_403_witness :
    handleRequest (fun _ => none) "GET" "/../etc/passwd" (fun _ => none) =
      .response ⟨403, some "text/plain", "403 Forbidden"⟩ :=
  c4_traversal_guard_403 (fun _ => none) "/../etc/passwd" (fun _ => none)
    (by decide) (by decide)

end GmDash

namespace GmDash

/-! ## Claims C5 and C6: proxy forwarding and SPA fallback -/

/-- Splitting a string at the first `?` and concatenating the parts gives
the string back. -/
theorem beforeChar_append_fromChar (s : String) (sep : Char) :
    beforeChar s sep ++ fromChar s sep = s := by
  have h : s.toList.takeWhile (fun c => c ≠ sep) ++ s.toList.dropWhile (fun c => c ≠ sep) =
      s.toList :=
    List.takeWhile_append_dropWhile (fun c : Char => decide (c ≠ sep)) s.toList
  calc beforeChar s sep ++ fromChar s sep
      = String.mk (s.toList.takeWhile (fun c => c ≠ sep) ++
          s.toList.dropWhile (fun c => c ≠ sep)) := rfl
    _ = String.mk s.toList := by rw [h]
    _ = s := rfl

/-- C5: for every request under `/api/n8n/` the proxy targets the fixed
upstream host, preserves the method, uses as upstream path exactly the
original path with only the `/api/n8n` prefix removed (query string
preserved), forwards the incoming `cookie` header value unchanged, and
forwards neither a `host` nor a `connection` header; the request handler
routes such requests to exactly this proxy request. -/
theorem c5_proxy_forwarding (fs : Fs) (method url : String) (reqHeaders : Headers)
    (hm : method ≠ "OPTIONS")
    (hpre : jsStartsWith url "/api/n8n" = true)
    (hpath : beforeChar (url.drop 8) '?' ≠ "")
    (hq : fromChar (url.drop 8) '?' ≠ "?") :
    (proxyToN8n method url reqHeaders).hostname = n8nHost ∧
    (proxyToN8n method url reqHeaders).method = method ∧
    (proxyToN8n method url reqHeaders).path = url.drop 8 ∧
    (proxyToN8n method url reqHeaders).headers "host" = none ∧
    (proxyToN8n method url reqHeaders).headers "connection" = none ∧
    (proxyToN8n method url reqHeaders).headers "cookie" = reqHeaders "cookie" ∧
    handleRequest fs method url reqHeaders = .proxy (proxyToN8n method url reqHeaders) := by
  have hh1 : url ≠ "/health" := by
    rintro rfl
    exact absurd hpre (by decide)
  have hh2 : url ≠ "/healthz" := by
    rintro rfl
    exact absurd hpre (by decide)
  refine ⟨rfl, rfl, ?_, ?_, ?_, ?_, ?_⟩
  · simp [proxyToN8n, hpre, hpath, hq, beforeChar_append_fromChar]
  · rcases hcook : reqHeaders "cookie" with _ | c <;> simp [proxyToN8n, hcook]
  · rcases hcook : reqHeaders "cookie" with _ | c <;> simp [proxyToN8n, hcook]
  · rcases hcook : reqHeaders "cookie" with _ | c <;> simp [proxyToN8n, hcook]
  · simp [handleRequest, hm, hh1, hh2, hpre]

/-- Concrete incoming headers for the proxy witness. -/
def c5SampleHeaders : Headers :=
  fun k =>
    if k = "cookie" then some "sid=abc"
    else if k = "host" then some "dashboard.example"
    else if k = "connection" then some "keep-alive"
    else if k = "accept" then some "application/json"
    else none

/-- Witness for C5 at `/api/n8n/foo?x=1` with cookie `sid=abc`. -/
theorem c5_proxy_forwarding_witness :
    (proxyToN8n "GET" "/api/n8n/foo?x=1" c5SampleHeaders).hostname = n8nHost ∧
    (proxyToN8n "GET" "/api/n8n/foo?x=1" c5SampleHeaders).method = "GET" ∧
    (proxyToN8n "GET" "/api/n8n/foo?x=1" c5SampleHeaders).path = "/api/n8n/foo?x=1".drop 8 ∧
    (proxyToN8n "GET" "/api/n8n/foo?x=1" c5SampleHeaders).headers "host" = none ∧
    (proxyToN8n "GET" "/api/n8n/foo?x=1" c5SampleHeaders).headers "connection" = none ∧
    (proxyToN8n "GET" "/api/n8n/foo?x=1" c5SampleHeaders).headers "cookie" =
      c5SampleHeaders "cookie" ∧
    handleRequest (fun _ => none) "GET" "/api/n8n/foo?x=1" c5SampleHeaders =
      .proxy (proxyToN8n "GET" "/api/n8n/foo?x=1" c5SampleHeaders) :=
  c5_proxy_forwarding (fun _ => none) "GET" "/api/n8n/foo?x=1" c5SampleHeaders
    (by decide) (by decide) (by decide) (by decide)

/-- C6: for a GET request routed to static serving whose resolved path is
absent from the asset root, the server answers with the contents of
`index.html` and status `200` when the request path has no extension (the
SPA fallback), and with `404` when it has one. -/
theorem c6_spa_fallback (fs : Fs) (url : String) (reqHeaders : Headers) (c : String)
    (hh1 : url ≠ "/health") (hh2 : url ≠ "/healthz")
    (hproxy : jsStartsWith url "/api/n8n" = false)
    (hdot : jsIncludes (beforeChar (if url = "/" then "/index.html" else url) '?') ".." = false)
    (hmiss : fs (distPath ++ beforeChar (if url = "/" then "/index.html" else url) '?') = none)
    (hidx : fs (distPath ++ "/index.html") = some (.file c)) :
    handleRequest fs "GET" url reqHeaders =
      .response
        (if extname (beforeChar (if url = "/" then "/index.html" else url) '?') = "" then
          ⟨200, some "text/html", c⟩
        else ⟨404, some "text/plain", "404 Not Found"⟩) := by
  have hct : (mimeTypes.lookup (extname (distPath ++ "/index.html"))).getD
      "application/octet-stream" = "text/html" := by decide
  have hserveIdx : serveFile fs (distPath ++ "/index.html") = ⟨200, some "text/html", c⟩ := by
    simp [serveFile, hidx, hct]
  have hserveMiss : serveFile fs
      (distPath ++ beforeChar (if url = "/" then "/index.html" else url) '?') =
      ⟨404, some "text/plain", "404 Not Found"⟩ := by
    simp [serveFile, hmiss]
  by_cases hext : extname (beforeChar (if url = "/" then "/index.html" else url) '?') = ""
  · simp [handleRequest, hh1, hh2, hproxy, hdot, hmiss, hidx, hext, hserveIdx]
  · simp [handleRequest, hh1, hh2, hproxy, hdot, hmiss, hext, hserveMiss]

/-- The filesystem for the SPA-fallback witness: only `index.html` exists
under the asset root. -/
def c6SampleFs : Fs :=
  fun p => if p = "/dist/index.html" then some (.file "INDEX") else none

/-- Witness for C6 at the extensionless missing path `/dashboard-view`. -/
theorem c6_spa_fallback_witness :
    handleRequest c6SampleFs "GET" "/dashboard-view" (fun _ => none) =
      .response
        (if extname (beforeChar
            (if "/dashboard-view" = "/" then "/index.html" else "/dashboard-view") '?') = ""
        then ⟨200, some "text/html", "INDEX"⟩
        else ⟨404, some "text/plain", "404 Not Found"⟩) :=
  c6_spa_fallback c6SampleFs "/dashboard-view" (fun _ => none) "INDEX"
    (by decide) (by decide) (by decide) (by decide) (by decide) (by decide)

end GmDash

namespace GmDash

/-! ## `transformNPS` and the fetch orchestrator (API service layer)

The orchestrator's network calls are modelled by their settled outcomes:
`Except.ok` carries the (already unwrapped) response payload, `Except.error`
a transport failure's message.  What each `fetch*` function does with that
outcome — normalize on success, or log and re-throw a descriptive error —
is embedded; `fetchSalesComparison` and `fetchAllData` are then exactly the
`Promise.allSettled` resp. `Promise.all` combinations of the source
(production branch, `USE_LOCAL_DATA` disabled).  The `.data`/`.results`
wrapper probing of the ticket-sales fetch happens before the payload enters
these functions and is treated as part of producing the `ok` payload. -/

/-- A raw satisfaction record as read by `transformNPS`. -/
structure NPSRecord where
  yesterday_score : Option ℚ
  last_year_yesterday_score : Option ℚ
  yesterday_compset : Option ℚ
  last_year_yesterday_compset : Option ℚ
  score_difference : Option ℚ
  percent_change : Option ℚ
  yesterday_date : Option String
  last_year_yesterday_date : Option String
deriving DecidableEq

/-- The raw satisfaction payload: a single object or an array. -/
inductive NPSRaw
  | single (r : NPSRecord)
  | arr (l : List NPSRecord)
deriving DecidableEq

/-- The normalized satisfaction snapshot. -/
structure NPSData where
  yesterdayScore : ℚ
  lastYearYesterdayScore : ℚ
  yesterdayCompset : ℚ
  lastYearYesterdayCompset : ℚ
  scoreDifference : ℚ
  percentChange : ℚ
  yesterdayDate : Option String
  lastYearYesterdayDate : Option String
deriving DecidableEq

/-- The field-rename map of `transformNPS`: numeric fields default to `0`,
the two date fields pass through. -/
def mkNPSData (r : NPSRecord) : NPSData :=
  ⟨orZero r.yesterday_score, orZero r.last_year_yesterday_score,
   orZero r.yesterday_compset, orZero r.last_year_yesterday_compset,
   orZero r.score_difference, orZero r.percent_change,
   r.yesterday_date, r.last_year_yesterday_date⟩

/-- `transformNPS`: `null` for absent input and for an empty array;
otherwise the first element of an array, or the single object itself. -/
def transformNPS (data : Option NPSRaw) : Option NPSData :=
  match data with
  | none => none
  | some (.arr []) => none
  | some (.arr (h :: _)) => some (mkNPSData h)
  | some (.single r) => some (mkNPSData r)

/-- The combined `sales` object `fetchSalesComparison` resolves with. -/
structure SalesData where
  ticketSales : Option ComparisonMetric
  seasonPassSales : Option ComparisonMetric
deriving DecidableEq

/-- The `DashboardSnapshot` assembled by `fetchAllData`. -/
structure DashboardSnapshot where
  sales : SalesData
  labor : Option LaborSummary
  satisfaction : Option NPSData
deriving DecidableEq

/-- What one `Promise.allSettled` slot contributes to the combined object:
the fulfilled value, or `null` when that promise rejected. -/
def settledValue {α : Type} (r : Except String (Option α)) : Option α :=
  match r with
  | .ok v => v
  | .error _ => none

/-- `fetchTicketSales` (production branch): a successful call's payload is
normalized; a failure is logged and re-thrown as
`Failed to fetch ticket sales: <message>`. -/
def fetchTicketSales (raw : Except String (Option (List TicketRecord))) :
    Except String (Option ComparisonMetric) :=
  match raw with
  | .ok data => .ok (transformTicketSales data)
  | .error e => .error ("Failed to fetch ticket sales: " ++ e)

/-- `fetchSeasonPassSales` (production branch). -/
def fetchSeasonPassSales (raw : Except String (Option (List PassRecord))) :
    Except String (Option ComparisonMetric) :=
  match raw with
  | .ok data => .ok (transformSeasonPassSales data)
  | .error e => .error ("Failed to fetch season pass sales: " ++ e)

/-- `fetchSalesComparison` (production branch): `Promise.allSettled` over
the two sub-fetches; each field is the fulfilled value or `null`, failures
are logged, and the function itself always resolves. -/
def fetchSalesComparison (tRaw : Except String (Option (List TicketRecord)))
    (pRaw : Except String (Option (List PassRecord))) : Except String SalesData :=
  .ok ⟨settledValue (fetchTicketSales tRaw), settledValue (fetchSeasonPassSales pRaw)⟩

/-- `fetchLaborExpenses` (production branch). -/
def fetchLaborExpenses (raw : Except String (Option (List LaborRecord))) :
    Except String (Option LaborSummary) :=
  match raw with
  | .ok data => .ok (transformLabor data)
  | .error e => .error ("Failed to fetch labor expenses: " ++ e)

/-- `fetchGuestSatisfaction` (production branch). -/
def fetchGuestSatisfaction (raw : Except String (Option NPSRaw)) :
    Except String (Option NPSData) :=
  match raw with
  | .ok data => .ok (transformNPS data)
  | .error e => .error ("Failed to fetch guest satisfaction: " ++ e)

/-- `fetchAllData`: `Promise.all` over `fetchSalesComparison`,
`fetchLaborExpenses` and `fetchGuestSatisfaction` — it resolves with the
snapshot only when all three fulfil and rejects as soon as any member
rejects (`Promise.all` rejects with the first rejection in time; only the
fact of rejection matters here), and its `catch` re-throws that error to
the caller. -/
def fetchAllData (tRaw : Except String (Option (List TicketRecord)))
    (pRaw : Except String (Option (List PassRecord)))
    (lRaw : Except String (Option (List LaborRecord)))
    (nRaw : Except String (Option NPSRaw)) : Except String DashboardSnapshot :=
  match fetchSalesComparison tRaw pRaw, fetchLaborExpenses lRaw,
      fetchGuestSatisfaction nRaw with
  | .ok sales, .ok labor, .ok satisfaction => .ok ⟨sales, labor, satisfaction⟩
  | .error e, _, _ => .error e
  | _, .error e, _ => .error e
  | _, _, .error e => .error e

end GmDash

namespace GmDash

/-! ## Claims C9 and C1: failure isolation in the orchestrator -/

/-- C9: if the ticket-sales fetch fails while the season-pass fetch
succeeds, `fetchSalesComparison` resolves (it does not throw) with
`ticketSales` `null` and `seasonPassSales` the fulfilled value. -/
theorem c9_salesComparison_partial_failure (e : String)
    (pRaw : Except String (Option (List PassRecord))) (v : Option ComparisonMetric)
    (hp : fetchSeasonPassSales pRaw = .ok v) :
    fetchSalesComparison (.error e) pRaw = .ok ⟨none, v⟩ := by
  simp [fetchSalesComparison, fetchTicketSales, settledValue, hp]

/-- Witness for C9: a timed-out ticket fetch next to a successful season
pass payload that normalizes to a non-null metric. -/
theorem c9_salesComparison_partial_failure_witness :
    fetchSeasonPassSales (.ok (some [⟨"FY26", 900, 90⟩, ⟨"FY25", 600, 60⟩])) =
      .ok (transformSeasonPassSales (some [⟨"FY26", 900, 90⟩, ⟨"FY25", 600, 60⟩])) ∧
    (transformSeasonPassSales (some [⟨"FY26", 900, 90⟩, ⟨"FY25", 600, 60⟩])).isSome = true ∧
    fetchSalesComparison (.error "timeout of 90000ms exceeded")
        (.ok (some [⟨"FY26", 900, 90⟩, ⟨"FY25", 600, 60⟩])) =
      .ok ⟨none, transformSeasonPassSales (some [⟨"FY26", 900, 90⟩, ⟨"FY25", 600, 60⟩])⟩ :=
  ⟨rfl, by simp [transformSeasonPassSales, List.find?],
    c9_salesComparison_partial_failure "timeout of 90000ms exceeded"
      (.ok (some [⟨"FY26", 900, 90⟩, ⟨"FY25", 600, 60⟩]))
      (transformSeasonPassSales (some [⟨"FY26", 900, 90⟩, ⟨"FY25", 600, 60⟩])) rfl⟩

/-- Counterexample to C1 as stated: a failing labor fetch alone makes
`fetchAllData` reject — no snapshot with a `null` labor field is produced,
so a failure in one source does prevent the other three from appearing in
a combined snapshot. -/
theorem c1_fetchAllData_labor_failure_counterexample :
    fetchAllData (.ok none) (.ok none) (.error "connect ECONNREFUSED") (.ok none) =
      .error "Failed to fetch labor expenses: connect ECONNREFUSED" := rfl

/-- C1 as amended: failure isolation holds only between the two sales
sub-fetches inside `fetchSalesComparison` — a ticket-sales or season-pass
failure leaves its field `null` while everything else completes — whereas a
failure of the labor fetch or of the satisfaction fetch makes `fetchAllData`
reject with that error instead of producing a snapshot. -/
theorem c1_amended_failure_isolation
    (tRaw : Except String (Option (List TicketRecord)))
    (pRaw : Except String (Option (List PassRecord)))
    (lRaw : Except String (Option (List LaborRecord)))
    (nRaw : Except String (Option NPSRaw))
    (lab : Option LaborSummary) (sat : Option NPSData) (e : String)
    (hl : fetchLaborExpenses lRaw = .ok lab)
    (hn : fetchGuestSatisfaction nRaw = .ok sat) :
    fetchAllData tRaw pRaw lRaw nRaw =
      .ok ⟨⟨settledValue (fetchTicketSales tRaw), settledValue (fetchSeasonPassSales pRaw)⟩,
        lab, sat⟩ ∧
    fetchAllData tRaw pRaw (.error e) nRaw =
      .error ("Failed to fetch labor expenses: " ++ e) ∧
    fetchAllData tRaw pRaw lRaw (.error e) =
      .error ("Failed to fetch guest satisfaction: " ++ e) := by
  refine ⟨?_, ?_, ?_⟩
  · simp [fetchAllData, fetchSalesComparison, hl, hn]
  · simp [fetchAllData, fetchSalesComparison, fetchLaborExpenses, hn]
  · simp [fetchAllData, fetchSalesComparison, fetchGuestSatisfaction, hl]

/-- Witness for the amended C1: the ticket fetch fails (its field is
`null`, the snapshot still resolves), and a labor or satisfaction failure
at the same inputs rejects the whole cycle. -/
theorem c1_amended_failure_isolation_witness :
    fetchAllData (.error "boom") (.ok none) (.ok none) (.ok none) =
      .ok ⟨⟨settledValue (fetchTicketSales (.error "boom")),
            settledValue (fetchSeasonPassSales (.ok none))⟩, none, none⟩ ∧
    fetchAllData (.error "boom") (.ok none) (.error "down") (.ok none) =
      .error ("Failed to fetch labor expenses: " ++ "down") ∧
    fetchAllData (.error "boom") (.ok none) (.ok none) (.error "down") =
      .error ("Failed to fetch guest satisfaction: " ++ "down") :=
  c1_amended_failure_isolation (.error "boom") (.ok none) (.ok none) (.ok none)
    none none "down" rfl rfl

end GmDash
